import Mathlib

/-!
Shallow embedding of `src/fairtest_project/testframework/models.py`:
the Django models `Product`, `Competitor` and `Zipcode` and the pricing
method `Product.adjusted_price`.

Modelling conventions:
* Database tables become Lean lists in insertion order
  (`Zipcode.objects.filter(...)` keeps that order, `[0]` takes the head and
  raises `IndexError` when no row matches, modelled with `Except`).
* The shopper zip parameter `request.GET.get('zip', '')` is a `String`;
  an absent HTTP parameter is the default `""`, so "empty" and "absent"
  coincide in the model, exactly as in the source.
* Python `Decimal` values are coefficient/exponent pairs `PyDecimal`
  (value = c * 10 ^ e).  `Decimal` multiplication follows the default
  context of the `decimal` module: exact product, then rounded to 28
  significant digits with round-half-even.  `Decimal(rate)` converts the
  binary float `rate` exactly; the float literal `0.8` is the IEEE-754
  double 3602879701896397 / 2 ^ 52.
* The geodesic distance `vincenty(a, b).miles` comes from the external
  library geopy; it is a parameter `miles : ℚ × ℚ → ℚ × ℚ → ℚ` of the
  embedding, since every claim quantifies over distances rather than over
  the geodesy itself.
-/

deriving instance DecidableEq for Except

/-- Number of decimal digits of a natural number, with explicit fuel so that
the definition is structurally recursive (`digits10Aux f n` is the digit
count of `n` as long as `f` is at least that count). -/
def digits10Aux : ℕ → ℕ → ℕ
  | 0, _ => 0
  | f + 1, n => if n = 0 then 0 else digits10Aux f (n / 10) + 1

/-- Number of digits of the decimal representation of `n` (`digits10 0 = 1`). -/
def digits10 (n : ℕ) : ℕ :=
  if n = 0 then 1 else digits10Aux n n

/-- `n / d` rounded to the nearest integer, ties to even — the rounding used
by Python's default `decimal` context (`ROUND_HALF_EVEN`). -/
def roundHalfEvenNat (n d : ℕ) : ℕ :=
  let q := n / d
  let r := n % d
  if d < 2 * r then q + 1
  else if 2 * r < d then q
  else if q % 2 = 1 then q + 1 else q

/-- Sign-magnitude half-even rounding of `c / d`, as `decimal` rounds signed
coefficients. -/
def roundHalfEvenInt (c : ℤ) (d : ℕ) : ℤ :=
  if c < 0 then -(roundHalfEvenNat c.natAbs d : ℤ) else (roundHalfEvenNat c.natAbs d : ℤ)

/-- A Python `decimal.Decimal` value: coefficient and exponent,
value `c * 10 ^ e`. -/
structure PyDecimal where
  c : ℤ
  e : ℤ
deriving DecidableEq

/-- The rational value of a `PyDecimal`. -/
def PyDecimal.val (x : PyDecimal) : ℚ :=
  if 0 ≤ x.e then (x.c : ℚ) * (10 : ℚ) ^ x.e.toNat
  else (x.c : ℚ) / (10 : ℚ) ^ (-x.e).toNat

/-- Number of digits of the coefficient of a `PyDecimal`. -/
def PyDecimal.digits (x : PyDecimal) : ℕ :=
  digits10 x.c.natAbs

/-- Precision of Python's default `decimal` context. -/
def pyPrec : ℕ := 28

/-- Multiplication of two `Decimal`s under Python's default context: the
exact product `(c₁ * c₂) * 10 ^ (e₁ + e₂)` is rounded (half-even) to at most
28 significant digits; a rounding carry that produces a 29-digit coefficient
is renormalised by one more factor of 10, as in `decimal`'s `_fix`. -/
def decCtxMul (x y : PyDecimal) : PyDecimal :=
  let c := x.c * y.c
  let e := x.e + y.e
  let dg := digits10 c.natAbs
  if dg ≤ pyPrec then ⟨c, e⟩
  else
    let p := dg - pyPrec
    let c2 := roundHalfEvenInt c (10 ^ p)
    if pyPrec < digits10 c2.natAbs then ⟨c2 / 10, e + (p : ℤ) + 1⟩
    else ⟨c2, e + (p : ℤ)⟩

/-- The exact value of the binary float literal `0.8` transcribed to
`Decimal`, i.e. `Decimal(0.8)`: coefficient 3602879701896397 * 5 ^ 52,
exponent -52 (= 0.8000000000000000444089209850062616169452667236328125). -/
def float08 : PyDecimal := ⟨3602879701896397 * 5 ^ 52, -52⟩

/-- The exact value of the binary float literal `1.0` transcribed to
`Decimal`, i.e. `Decimal(1.0) = Decimal('1')`. -/
def float10 : PyDecimal := ⟨1, 0⟩

/-- The `Zipcode` model: a geocoding row mapping a postal code to
latitude/longitude (the Django `FloatField`s are modelled as rationals). -/
structure Zipcode where
  zip : String
  city : String
  state : String
  la : ℚ
  lo : ℚ
deriving DecidableEq

/-- `Zipcode.coordinate`: the pair `(la, lo)`. -/
def Zipcode.coordinate (z : Zipcode) : ℚ × ℚ :=
  (z.la, z.lo)

/-- The `Competitor` model. -/
structure Competitor where
  name : String
  address : String
  zip : String
deriving DecidableEq

/-- The `Product` model: `baseprice` is a `DecimalField(max_digits=15,
decimal_places=2)`, hence a `Decimal` value. -/
structure Product where
  name : String
  baseprice : PyDecimal
deriving DecidableEq

/-- The Python exception that aborts `adjusted_price`: indexing `[0]` into an
empty queryset raises `IndexError`. -/
inductive PyError where
  | indexError
deriving DecidableEq

/-- `Model.objects.filter(zip=z)[0]` on a `Zipcode` table: the first row whose
`zip` field equals `z`, or `IndexError` when no row matches. -/
def firstFilter (tab : List Zipcode) (z : String) : Except PyError Zipcode :=
  match tab.filter (fun r => r.zip == z) with
  | [] => Except.error PyError.indexError
  | r :: _ => Except.ok r

/-- The competitor scan of `Product.adjusted_price`, lines 28-32 of
`models.py`.  The `break` statement in the source sits at the level of the
loop body, not inside the `if`, so the loop exits after its first iteration
whether or not the first competitor qualified: the tail of the list is never
examined.  The result is the final value of `rate` as a `Decimal`
(`Decimal(0.8)` or `Decimal(1.0)`), or the `IndexError` raised when the
examined competitor's zip has no row. -/
def rateLoop (tab : List Zipcode) (miles : ℚ × ℚ → ℚ × ℚ → ℚ) (co : ℚ × ℚ) :
    List Competitor → Except PyError PyDecimal
  | [] => Except.ok float10
  | c :: _rest =>
    match firstFilter tab c.zip with
    | Except.error err => Except.error err
    | Except.ok row =>
      if miles co row.coordinate < 5 then Except.ok float08 else Except.ok float10

/-- `Product.adjusted_price(self, request)`, lines 23-33 of `models.py`:
if the shopper zip is non-empty, resolve it through the `Zipcode` table
(unguarded `[0]`), run the competitor scan, and return
`self.baseprice * Decimal(rate)`; otherwise return
`self.baseprice * Decimal(1.0)`. -/
def Product.adjusted_price (p : Product) (tab : List Zipcode)
    (comps : List Competitor) (miles : ℚ × ℚ → ℚ × ℚ → ℚ)
    (shopperZip : String) : Except PyError PyDecimal :=
  if shopperZip ≠ "" then
    match firstFilter tab shopperZip with
    | Except.error err => Except.error err
    | Except.ok row =>
      match rateLoop tab miles row.coordinate comps with
      | Except.error err => Except.error err
      | Except.ok rate => Except.ok (decCtxMul p.baseprice rate)
  else
    Except.ok (decCtxMul p.baseprice float10)

/- NOTE on the source line under scrutiny: in `models.py` the `break` inside
`adjusted_price` is indented at the level of the loop body, outside the
`if vincenty(co, cz).miles < 5:` block, so it runs unconditionally at the end
of the first iteration.  `rateLoop` reflects that: the list tail is dead. -/

/-- Modelled from the spec (for claim C1 only): the scan as §4.1 steps 2-6
describe it — iterate the full competitor list and stop only at the first
competitor whose distance is strictly under 5 miles.  It differs from
`rateLoop` exactly in continuing past a non-qualifying competitor. -/
def rateLoopSpecScan (tab : List Zipcode) (miles : ℚ × ℚ → ℚ × ℚ → ℚ)
    (co : ℚ × ℚ) : List Competitor → Except PyError PyDecimal
  | [] => Except.ok float10
  | c :: rest =>
    match firstFilter tab c.zip with
    | Except.error err => Except.error err
    | Except.ok row =>
      if miles co row.coordinate < 5 then Except.ok float08
      else rateLoopSpecScan tab miles co rest

/-- Modelled from the spec (for claim C1 only): `adjusted_price` with the
spec-described scan `rateLoopSpecScan` in place of the source's `rateLoop`;
identical everywhere else. -/
def adjustedPriceSpecScan (p : Product) (tab : List Zipcode)
    (comps : List Competitor) (miles : ℚ × ℚ → ℚ × ℚ → ℚ)
    (shopperZip : String) : Except PyError PyDecimal :=
  if shopperZip ≠ "" then
    match firstFilter tab shopperZip with
    | Except.error err => Except.error err
    | Except.ok row =>
      match rateLoopSpecScan tab miles row.coordinate comps with
      | Except.error err => Except.error err
      | Except.ok rate => Except.ok (decCtxMul p.baseprice rate)
  else
    Except.ok (decCtxMul p.baseprice float10)

/-! ### Concrete fixtures used by witnesses and counterexamples -/

/-- A zipcode row at the origin. -/
def zA : Zipcode := ⟨"11111", "Alpha", "AA", 0, 0⟩

/-- A zipcode row far from the origin. -/
def zB : Zipcode := ⟨"22222", "Beta", "BB", 10, 10⟩

/-- A second zipcode row at the origin, under a different zip. -/
def zC : Zipcode := ⟨"33333", "Gamma", "CC", 0, 0⟩

/-- A duplicate row for zip `"11111"` with different coordinates, inserted
after the canonical one in claim C9's witness. -/
def zDup : Zipcode := ⟨"11111", "Delta", "DD", 50, 50⟩

/-- A three-row zipcode table. -/
def ztab : List Zipcode := [zA, zB, zC]

/-- A product with base price `Decimal('100.00')`. -/
def P100 : Product := ⟨"widget", ⟨10000, -2⟩⟩

/-- A concrete distance function: 0 miles between equal coordinate pairs,
100 miles otherwise. -/
def dEx : ℚ × ℚ → ℚ × ℚ → ℚ := fun a b => if a = b then 0 else 100

/-- A competitor whose zip resolves far from the origin (under `dEx`). -/
def cFar : Competitor := ⟨"c1", "a1", "22222"⟩

/-- A competitor whose zip resolves to the origin itself. -/
def cNear : Competitor := ⟨"c2", "a2", "33333"⟩

/-- A competitor whose zip has no row in `ztab`. -/
def cBad : Competitor := ⟨"c3", "a3", "99999"⟩

/-! ### Helper lemmas shared by several claims -/

/-- `Decimal` multiplication by `Decimal(1.0)` is the identity whenever the
coefficient fits in the 28-digit context precision, in particular for any
value a `DecimalField(max_digits=15)` can hold. -/
theorem decCtxMul_float10 (x : PyDecimal) (h : x.digits ≤ 15) :
    decCtxMul x float10 = x := by
  have h28 : digits10 (x.c * 1).natAbs ≤ pyPrec := by
    rw [mul_one]
    exact le_trans h (by norm_num [pyPrec])
  simp only [decCtxMul, float10, if_pos h28]
  rw [mul_one, add_zero]

/-- When the shopper zip is non-empty and resolves to `r`, and the first
competitor's zip resolves to `rc` strictly under 5 miles away, the returned
price is `baseprice * Decimal(0.8)` under the decimal context. -/
theorem adjusted_price_close_first (p : Product) (tab : List Zipcode)
    (c : Competitor) (cs : List Competitor) (miles : ℚ × ℚ → ℚ × ℚ → ℚ)
    (s : String) (r rc : Zipcode)
    (hs : s ≠ "") (hr : firstFilter tab s = Except.ok r)
    (hrc : firstFilter tab c.zip = Except.ok rc)
    (hlt : miles r.coordinate rc.coordinate < 5) :
    p.adjusted_price tab (c :: cs) miles s
      = Except.ok (decCtxMul p.baseprice float08) := by
  unfold Product.adjusted_price
  rw [if_pos hs, hr]
  simp only [rateLoop, hrc, if_pos hlt]

/-- When the shopper zip is non-empty and resolves to `r`, and the first
competitor's zip resolves to `rc` at 5 miles or more, the rate stays
`Decimal(1.0)`. -/
theorem adjusted_price_far_first (p : Product) (tab : List Zipcode)
    (c : Competitor) (cs : List Competitor) (miles : ℚ × ℚ → ℚ × ℚ → ℚ)
    (s : String) (r rc : Zipcode)
    (hs : s ≠ "") (hr : firstFilter tab s = Except.ok r)
    (hrc : firstFilter tab c.zip = Except.ok rc)
    (hge : ¬ miles r.coordinate rc.coordinate < 5) :
    p.adjusted_price tab (c :: cs) miles s
      = Except.ok (decCtxMul p.baseprice float10) := by
  unfold Product.adjusted_price
  rw [if_pos hs, hr]
  simp only [rateLoop, hrc, if_neg hge]

/-- Appending rows whose zips already occur in `t` does not change what
`filter(zip=z)[0]` returns, for any `z`. -/
theorem firstFilter_append_dup (t e : List Zipcode)
    (h : ∀ r ∈ e, ∃ r2 ∈ t, r2.zip = r.zip) (z : String) :
    firstFilter (t ++ e) z = firstFilter t z := by
  unfold firstFilter
  rw [List.filter_append]
  cases ht : t.filter (fun r => r.zip == z) with
  | cons r rs => rfl
  | nil =>
    have he : e.filter (fun r => r.zip == z) = [] := by
      rw [List.filter_eq_nil_iff]
      intro a ha hpa
      rw [beq_iff_eq] at hpa
      obtain ⟨r2, hr2t, hr2z⟩ := h a ha
      have hmem : r2 ∈ t.filter (fun r => r.zip == z) :=
        List.mem_filter.mpr ⟨hr2t, beq_iff_eq.mpr (hr2z.trans hpa)⟩
      rw [ht] at hmem
      exact absurd hmem (List.not_mem_nil r2)
    rw [List.nil_append, he]

/-- The competitor scan is likewise unchanged by appended duplicate rows. -/
theorem rateLoop_append_dup (t e : List Zipcode)
    (h : ∀ r ∈ e, ∃ r2 ∈ t, r2.zip = r.zip) (m : ℚ × ℚ → ℚ × ℚ → ℚ)
    (co : ℚ × ℚ) (comps : List Competitor) :
    rateLoop (t ++ e) m co comps = rateLoop t m co comps := by
  cases comps with
  | nil => rfl
  | cons c cs => simp only [rateLoop, firstFilter_append_dup t e h]

/-- `Decimal(0.8)` is not the rational 4/5: the binary float value differs
from the decimal literal. -/
theorem float08_val_ne : float08.val ≠ 4 / 5 := by
  rw [show float08.val = ((3602879701896397 * 5 ^ 52 : ℤ) : ℚ) / 10 ^ (52 : ℕ) from rfl]
  norm_num

/-! ### Claim C1 -/

/-- Claim C1, counterexample: the claim says competitors before the first
qualifying one do not end the scan.  With shopper zip `"11111"` and
competitors `[cFar, cNear]` — the first 100 miles away, the second 0 miles
away — the source's scan and the spec-described scan disagree: the source's
`break` ends the scan at the non-qualifying first competitor. -/
theorem scan_ends_at_first_nonqualifying_competitor :
    Product.adjusted_price P100 ztab [cFar, cNear] dEx "11111"
      ≠ adjustedPriceSpecScan P100 ztab [cFar, cNear] dEx "11111" := by decide

/-- Claim C1 as amended: the pricing computation does not iterate the full
competitor set; it behaves exactly like the spec-described first-qualifying
scan run on only the first competitor of the iteration order (the `break`
runs unconditionally at the end of the first loop iteration). -/
theorem adjusted_price_scans_only_first_competitor (p : Product)
    (tab : List Zipcode) (comps : List Competitor)
    (miles : ℚ × ℚ → ℚ × ℚ → ℚ) (s : String) :
    p.adjusted_price tab comps miles s
      = adjustedPriceSpecScan p tab (comps.take 1) miles s := by
  cases comps with
  | nil => rfl
  | cons c cs => rfl

/-! ### Claim C2 -/

/-- Claim C2, counterexample: a competitor (`cNear`, 0 miles away, zip
resolvable) lies strictly under 5 miles from the shopper, yet
`adjusted_price` is not `base_price * 0.8`: the scan broke at the far first
competitor and the full price 100 is returned instead of 80. -/
theorem close_second_competitor_gets_no_discount :
    (cNear ∈ [cFar, cNear] ∧ firstFilter ztab "11111" = Except.ok zA ∧
      firstFilter ztab cNear.zip = Except.ok zC ∧
      dEx zA.coordinate zC.coordinate < 5) ∧
    Except.map PyDecimal.val (Product.adjusted_price P100 ztab [cFar, cNear] dEx "11111")
      ≠ Except.ok (PyDecimal.val P100.baseprice * (4 / 5)) := by
  refine ⟨by decide, ?_⟩
  have h : Product.adjusted_price P100 ztab [cFar, cNear] dEx "11111"
      = Except.ok ⟨10000, -2⟩ := by decide
  rw [h]
  simp only [Except.map, ne_eq, Except.ok.injEq]
  rw [show PyDecimal.val ⟨10000, -2⟩ = (10000 : ℚ) / 10 ^ (2 : ℕ) from rfl,
    show PyDecimal.val P100.baseprice = (10000 : ℚ) / 10 ^ (2 : ℕ) from rfl]
  norm_num

/-- Claim C2 as amended: for every product and every shopper zip that
resolves to coordinates, if the FIRST competitor in iteration order has a
resolvable zip and lies strictly under 5 miles from the shopper, then
`adjusted_price` returns `baseprice * Decimal(0.8)` computed under the
default decimal context — `Decimal(0.8)` being the exact transcription of
the binary float 0.8, not the rational 4/5.  (Competitors after the first
never matter, and a qualifying competitor that is not first is missed.) -/
theorem adjusted_price_discount_when_first_competitor_close (p : Product)
    (tab : List Zipcode) (c : Competitor) (cs : List Competitor)
    (miles : ℚ × ℚ → ℚ × ℚ → ℚ) (s : String) (r rc : Zipcode)
    (hs : s ≠ "") (hr : firstFilter tab s = Except.ok r)
    (hrc : firstFilter tab c.zip = Except.ok rc)
    (hlt : miles r.coordinate rc.coordinate < 5) :
    p.adjusted_price tab (c :: cs) miles s
      = Except.ok (decCtxMul p.baseprice float08) :=
  adjusted_price_close_first p tab c cs miles s r rc hs hr hrc hlt

/-- Witness for the amended claim C2 at a concrete state: shopper zip
`"11111"`, single competitor `cNear` at 0 miles. -/
theorem adjusted_price_discount_when_first_competitor_close_witness :
    ((("11111" : String) ≠ "" ∧ firstFilter ztab "11111" = Except.ok zA ∧
      firstFilter ztab cNear.zip = Except.ok zC ∧
      dEx zA.coordinate zC.coordinate < 5)) ∧
    Product.adjusted_price P100 ztab [cNear] dEx "11111"
      = Except.ok (decCtxMul P100.baseprice float08) :=
  ⟨⟨by decide, by decide, by decide, by decide⟩,
    adjusted_price_discount_when_first_competitor_close P100 ztab cNear []
      dEx "11111" zA zC (by decide) (by decide) (by decide) (by decide)⟩

/-! ### Claim C3 -/

/-- Claim C3: with an empty (or absent — the HTTP layer defaults it to the
empty string) shopper zip, `adjusted_price` returns the base price
unmodified for every zip table and every competitor list; the hypothesis is
the `DecimalField(max_digits=15)` bound on the stored coefficient. -/
theorem adjusted_price_empty_or_absent_zip (p : Product)
    (tab : List Zipcode) (comps : List Competitor)
    (miles : ℚ × ℚ → ℚ × ℚ → ℚ) (h : p.baseprice.digits ≤ 15) :
    p.adjusted_price tab comps miles "" = Except.ok p.baseprice := by
  unfold Product.adjusted_price
  rw [if_neg (by simp)]
  exact congrArg Except.ok (decCtxMul_float10 p.baseprice h)

/-- Witness for claim C3 at a concrete state. -/
theorem adjusted_price_empty_or_absent_zip_witness :
    P100.baseprice.digits ≤ 15 ∧
    Product.adjusted_price P100 ztab [cNear] dEx "" = Except.ok P100.baseprice :=
  ⟨by decide, adjusted_price_empty_or_absent_zip P100 ztab [cNear] dEx (by decide)⟩

/-! ### Claim C4 -/

/-- Claim C4: for every product and every shopper zip resolving to
coordinates `r.coordinate`, if every competitor's zip resolves and none lies
strictly within 5 miles of the shopper, the price is the base price (the
rate stays `Decimal(1.0)`).  The digits hypothesis is the
`DecimalField(max_digits=15)` bound. -/
theorem adjusted_price_no_competitor_within_five_miles (p : Product)
    (tab : List Zipcode) (comps : List Competitor)
    (miles : ℚ × ℚ → ℚ × ℚ → ℚ) (s : String) (r : Zipcode)
    (hs : s ≠ "") (hr : firstFilter tab s = Except.ok r)
    (hd : p.baseprice.digits ≤ 15)
    (hfar : ∀ c ∈ comps, ∃ rc, firstFilter tab c.zip = Except.ok rc ∧
      ¬ miles r.coordinate rc.coordinate < 5) :
    p.adjusted_price tab comps miles s = Except.ok p.baseprice := by
  cases comps with
  | nil =>
    unfold Product.adjusted_price
    rw [if_pos hs, hr]
    simp only [rateLoop]
    exact congrArg Except.ok (decCtxMul_float10 p.baseprice hd)
  | cons c cs =>
    obtain ⟨rc, hrc, hge⟩ := hfar c (List.mem_cons_self c cs)
    rw [adjusted_price_far_first p tab c cs miles s r rc hs hr hrc hge]
    exact congrArg Except.ok (decCtxMul_float10 p.baseprice hd)

/-- Witness for claim C4 at a concrete state: one competitor, 100 miles
away. -/
theorem adjusted_price_no_competitor_within_five_miles_witness :
    ((("11111" : String) ≠ "" ∧ firstFilter ztab "11111" = Except.ok zA ∧
      P100.baseprice.digits ≤ 15 ∧
      (∀ c ∈ [cFar], ∃ rc, firstFilter ztab c.zip = Except.ok rc ∧
        ¬ dEx zA.coordinate rc.coordinate < 5))) ∧
    Product.adjusted_price P100 ztab [cFar] dEx "11111" = Except.ok P100.baseprice := by
  have hfar : ∀ c ∈ [cFar], ∃ rc, firstFilter ztab c.zip = Except.ok rc ∧
      ¬ dEx zA.coordinate rc.coordinate < 5 := by
    intro c hc
    rw [List.mem_singleton] at hc
    subst hc
    exact ⟨zB, by decide, by decide⟩
  exact ⟨⟨by decide, by decide, by decide, hfar⟩,
    adjusted_price_no_competitor_within_five_miles P100 ztab [cFar] dEx "11111" zA
      (by decide) (by decide) (by decide) hfar⟩

/-! ### Claim C5 -/

/-- Claim C5: the threshold is strict — when the examined competitor's
distance to the shopper is exactly 5.0 miles, the 0.8 rate is not applied
and the base price is returned.  (The examined competitor is the first in
iteration order, the only one the scan reaches.) -/
theorem adjusted_price_competitor_at_exactly_five_miles (p : Product)
    (tab : List Zipcode) (c : Competitor) (cs : List Competitor)
    (miles : ℚ × ℚ → ℚ × ℚ → ℚ) (s : String) (r rc : Zipcode)
    (hs : s ≠ "") (hr : firstFilter tab s = Except.ok r)
    (hd : p.baseprice.digits ≤ 15)
    (hrc : firstFilter tab c.zip = Except.ok rc)
    (heq : miles r.coordinate rc.coordinate = 5) :
    p.adjusted_price tab (c :: cs) miles s = Except.ok p.baseprice := by
  rw [adjusted_price_far_first p tab c cs miles s r rc hs hr hrc
    (by rw [heq]; exact lt_irrefl 5)]
  exact congrArg Except.ok (decCtxMul_float10 p.baseprice hd)

/-- Witness for claim C5: a distance function putting every pair of
coordinates exactly 5 miles apart. -/
theorem adjusted_price_competitor_at_exactly_five_miles_witness :
    ((("11111" : String) ≠ "" ∧ firstFilter ztab "11111" = Except.ok zA ∧
      P100.baseprice.digits ≤ 15 ∧
      firstFilter ztab cNear.zip = Except.ok zC ∧
      (fun _ _ => (5 : ℚ)) zA.coordinate zC.coordinate = 5)) ∧
    Product.adjusted_price P100 ztab [cNear] (fun _ _ => (5 : ℚ)) "11111"
      = Except.ok P100.baseprice :=
  ⟨⟨by decide, by decide, by decide, by decide, rfl⟩,
    adjusted_price_competitor_at_exactly_five_miles P100 ztab cNear []
      (fun _ _ => (5 : ℚ)) "11111" zA zC (by decide) (by decide) (by decide)
      (by decide) rfl⟩

/-! ### Claim C6 -/

/-- Claim C6, counterexample: with base price `Decimal('100.00')` and a
qualifying first competitor, the returned amount is not the exact decimal
product `100 * (4/5) = 80`: the rate actually multiplied in is the binary
float 0.8 transcribed to decimal, so the result is
80.00000000000000444089209850 (28 significant digits). -/
theorem discounted_price_is_not_exact_four_fifths :
    Except.map PyDecimal.val (Product.adjusted_price P100 ztab [cNear] dEx "11111")
      ≠ Except.ok (PyDecimal.val P100.baseprice * (4 / 5)) := by
  have h : Product.adjusted_price P100 ztab [cNear] dEx "11111"
      = Except.ok ⟨8000000000000000444089209850, -26⟩ := by decide
  rw [h]
  simp only [Except.map, ne_eq, Except.ok.injEq]
  rw [show PyDecimal.val ⟨8000000000000000444089209850, -26⟩
      = (8000000000000000444089209850 : ℚ) / 10 ^ (26 : ℕ) from rfl,
    show PyDecimal.val P100.baseprice = (10000 : ℚ) / 10 ^ (2 : ℕ) from rfl]
  norm_num

/-- Claim C6 as amended: the final multiplication is performed in decimal
arithmetic, but `Decimal(rate)` transcribes the binary float 0.8 exactly, so
a binary floating-point value does enter the monetary result: the discounted
amount is `baseprice * Decimal(0.8)` under the 28-digit context, and
`Decimal(0.8)` is not the rational 4/5. -/
theorem adjusted_price_rate_is_binary_float_transcription (p : Product)
    (tab : List Zipcode) (c : Competitor) (cs : List Competitor)
    (miles : ℚ × ℚ → ℚ × ℚ → ℚ) (s : String) (r rc : Zipcode)
    (hs : s ≠ "") (hr : firstFilter tab s = Except.ok r)
    (hrc : firstFilter tab c.zip = Except.ok rc)
    (hlt : miles r.coordinate rc.coordinate < 5) :
    p.adjusted_price tab (c :: cs) miles s
      = Except.ok (decCtxMul p.baseprice float08) ∧ float08.val ≠ 4 / 5 :=
  ⟨adjusted_price_close_first p tab c cs miles s r rc hs hr hrc hlt,
    float08_val_ne⟩

/-- Witness for the amended claim C6 at a concrete state (a dead trailing
competitor with an unknown zip included to show it cannot interfere). -/
theorem adjusted_price_rate_is_binary_float_transcription_witness :
    ((("11111" : String) ≠ "" ∧ firstFilter ztab "11111" = Except.ok zA ∧
      firstFilter ztab cNear.zip = Except.ok zC ∧
      dEx zA.coordinate zC.coordinate < 5)) ∧
    (Product.adjusted_price P100 ztab [cNear, cBad] dEx "11111"
      = Except.ok (decCtxMul P100.baseprice float08) ∧ float08.val ≠ 4 / 5) :=
  ⟨⟨by decide, by decide, by decide, by decide⟩,
    adjusted_price_rate_is_binary_float_transcription P100 ztab cNear [cBad]
      dEx "11111" zA zC (by decide) (by decide) (by decide) (by decide)⟩

/-! ### Claim C7 -/

/-- Claim C7, counterexample: the first competitor's zip `"99999"` has no
row in the table.  The claim says the computation skips that competitor,
continues with the remaining ones (here `cNear`, which would qualify), and
still produces a price; instead the whole computation aborts with
`IndexError` and no price is produced. -/
theorem missing_competitor_zip_mapping_aborts :
    Product.adjusted_price P100 ztab [cBad, cNear] dEx "11111"
      = Except.error PyError.indexError := by decide

/-- Claim C7 as amended: when the shopper zip resolves but the zip of the
first competitor in iteration order has no row in the `Zipcode` table, the
pricing computation aborts with `IndexError` (the unguarded `[0]` access on
an empty queryset); the competitor is not skipped and no price is
returned. -/
theorem adjusted_price_missing_competitor_zip_raises (p : Product)
    (tab : List Zipcode) (c : Competitor) (cs : List Competitor)
    (miles : ℚ × ℚ → ℚ × ℚ → ℚ) (s : String) (r : Zipcode)
    (hs : s ≠ "") (hr : firstFilter tab s = Except.ok r)
    (hmiss : tab.filter (fun z => z.zip == c.zip) = []) :
    p.adjusted_price tab (c :: cs) miles s = Except.error PyError.indexError := by
  unfold Product.adjusted_price
  rw [if_pos hs, hr]
  simp only [rateLoop, firstFilter, hmiss]

/-- Witness for the amended claim C7 at a concrete state. -/
theorem adjusted_price_missing_competitor_zip_raises_witness :
    ((("11111" : String) ≠ "" ∧ firstFilter ztab "11111" = Except.ok zA ∧
      ztab.filter (fun z => z.zip == cBad.zip) = [])) ∧
    Product.adjusted_price P100 ztab [cBad] dEx "11111"
      = Except.error PyError.indexError :=
  ⟨⟨by decide, by decide, by decide⟩,
    adjusted_price_missing_competitor_zip_raises P100 ztab cBad [] dEx "11111"
      zA (by decide) (by decide) (by decide)⟩

/-! ### Claim C8 -/

/-- Claim C8: a non-empty shopper zip with no row in the `Zipcode` table
makes `adjusted_price` fail — the zip-lookup failure path is reached (the
unguarded `filter(...)[0]` raises `IndexError`, the behavior the spec names
`NotFoundError` / a latent crash) — and no price is returned, for every
product, competitor list and distance function. -/
theorem adjusted_price_unknown_shopper_zip_fails (p : Product)
    (tab : List Zipcode) (comps : List Competitor)
    (miles : ℚ × ℚ → ℚ × ℚ → ℚ) (s : String)
    (hs : s ≠ "") (hnone : tab.filter (fun z => z.zip == s) = []) :
    p.adjusted_price tab comps miles s = Except.error PyError.indexError := by
  unfold Product.adjusted_price
  rw [if_pos hs]
  simp only [firstFilter, hnone]

/-- Witness for claim C8 at a concrete state: shopper zip `"77777"` has no
row in `ztab`. -/
theorem adjusted_price_unknown_shopper_zip_fails_witness :
    ((("77777" : String) ≠ "" ∧ ztab.filter (fun z => z.zip == "77777") = [])) ∧
    Product.adjusted_price P100 ztab [cNear] dEx "77777"
      = Except.error PyError.indexError :=
  ⟨⟨by decide, by decide⟩,
    adjusted_price_unknown_shopper_zip_fails P100 ztab [cNear] dEx "77777"
      (by decide) (by decide)⟩

/-! ### Claim C9 -/

/-- Claim C9: every zip-to-coordinate resolution takes the first matching
row, so rows appended after an existing row with the same zip never
influence the computed price: for any block `e` of rows whose zips all
already occur in `t`, pricing against `t ++ e` equals pricing against `t`,
for every product, competitor list, distance function and shopper zip. -/
theorem adjusted_price_ignores_later_duplicate_rows (p : Product)
    (t e : List Zipcode) (comps : List Competitor)
    (miles : ℚ × ℚ → ℚ × ℚ → ℚ) (s : String)
    (h : ∀ r ∈ e, ∃ r2 ∈ t, r2.zip = r.zip) :
    p.adjusted_price (t ++ e) comps miles s = p.adjusted_price t comps miles s := by
  unfold Product.adjusted_price
  simp only [firstFilter_append_dup t e h, rateLoop_append_dup t e h]

/-- Witness for claim C9: a duplicate row for zip `"11111"` with different
coordinates, appended after the canonical rows, does not change the
price. -/
theorem adjusted_price_ignores_later_duplicate_rows_witness :
    (∀ r ∈ [zDup], ∃ r2 ∈ ztab, r2.zip = r.zip) ∧
    Product.adjusted_price P100 (ztab ++ [zDup]) [cNear] dEx "11111"
      = Product.adjusted_price P100 ztab [cNear] dEx "11111" := by
  have h : ∀ r ∈ [zDup], ∃ r2 ∈ ztab, r2.zip = r.zip := by
    intro r hr
    rw [List.mem_singleton] at hr
    subst hr
    exact ⟨zA, by decide, rfl⟩
  exact ⟨h, adjusted_price_ignores_later_duplicate_rows P100 ztab [zDup] [cNear]
    dEx "11111" h⟩

/-! ### Claim C10 -/

/-- Claim C10 (implicit): the loop body runs at most once, so the adjusted
price depends only on the first competitor of the iteration order — two
competitor lists with the same head give the same result whatever their
tails, for every product, table, distance function and shopper zip. -/
theorem adjusted_price_depends_only_on_first_competitor (p : Product)
    (tab : List Zipcode) (c : Competitor) (cs cs2 : List Competitor)
    (miles : ℚ × ℚ → ℚ × ℚ → ℚ) (s : String) :
    p.adjusted_price tab (c :: cs) miles s
      = p.adjusted_price tab (c :: cs2) miles s := rfl
